import Mathlib

/-!
Verification development for the Gena 2D rendering engine.

Shallow embedding of the engine core in Lean 4: f32 values are modelled
as rationals, u32 dimensions as naturals, the growable registries as
lists, and reference-counted handles as numeric identities.  Each
definition mirrors one item of the Rust source, named after it.
-/

namespace Gena

/-! ## Camera2D (crates/engine/src/core/camera.rs) -/

/-- Model of struct Camera2D: position, zoom, speed, viewport size. -/
structure Camera2D where
  position : ℚ × ℚ
  zoom : ℚ
  speed : ℚ
  viewport_width : ℚ
  viewport_height : ℚ
deriving DecidableEq

/-- Model of Camera2D::new: origin position, zoom 1, speed 500. -/
def Camera2D.new (viewport_width viewport_height : ℚ) : Camera2D :=
  { position := (0, 0), zoom := 1, speed := 500,
    viewport_width := viewport_width, viewport_height := viewport_height }

/-- Model of Camera2D::set_zoom: zoom = zoom.max(0.1). -/
def Camera2D.set_zoom (c : Camera2D) (zoom : ℚ) : Camera2D :=
  { c with zoom := max zoom (1 / 10) }

/-- Model of Camera2D::zoom_by: zoom = (self.zoom + delta).max(0.1). -/
def Camera2D.zoom_by (c : Camera2D) (delta : ℚ) : Camera2D :=
  { c with zoom := max (c.zoom + delta) (1 / 10) }

/-- Model of Camera2D::translate. -/
def Camera2D.translate (c : Camera2D) (dx dy : ℚ) : Camera2D :=
  { c with position := (c.position.1 + dx, c.position.2 + dy) }

/-- Model of Camera2D::screen_to_world:
(screen_x / zoom + position.x, screen_y / zoom + position.y). -/
def Camera2D.screen_to_world (c : Camera2D) (screen_x screen_y : ℚ) : ℚ × ℚ :=
  (screen_x / c.zoom + c.position.1, screen_y / c.zoom + c.position.2)

/-- Model of Camera2D::world_to_screen:
((world_x - position.x) * zoom, (world_y - position.y) * zoom). -/
def Camera2D.world_to_screen (c : Camera2D) (world_x world_y : ℚ) : ℚ × ℚ :=
  ((world_x - c.position.1) * c.zoom, (world_y - c.position.2) * c.zoom)

/-! ## Scene (crates/engine/src/core/scene.rs) -/

/-- Model of struct Scene: name, camera, accumulated mouse delta. -/
structure Scene where
  name : String
  camera : Camera2D
  mouse_delta : ℚ × ℚ
deriving DecidableEq

/-- Model of Scene::new: zero accumulated delta. -/
def Scene.new (name : String) (camera : Camera2D) : Scene :=
  { name := name, camera := camera, mouse_delta := (0, 0) }

/-- Model of Scene::accumulate_mouse: componentwise addition into the
accumulator. -/
def Scene.accumulate_mouse (s : Scene) (dx dy : ℚ) : Scene :=
  { s with mouse_delta := (s.mouse_delta.1 + dx, s.mouse_delta.2 + dy) }

/-- Model of Scene::update.  The source tests mouse_delta.norm() > 0.0;
since the euclidean norm of (x, y) is positive exactly when x^2 + y^2 is
positive, the condition is modelled without the square root.  Inside the
branch the source only resets the accumulator: the line that would apply
the delta to the camera is commented out, so the camera (and every other
field) is left untouched. -/
def Scene.update (s : Scene) (_delta_time : ℚ) : Scene :=
  if s.mouse_delta.1 ^ 2 + s.mouse_delta.2 ^ 2 > 0 then
    { s with mouse_delta := (0, 0) }
  else
    s

/-! ## EguiRenderer (crates/engine/src/window/gui.rs) -/

/-- Model of the frame command encoder: the only observable this
development needs is how many render passes have been opened on it. -/
structure Encoder where
  render_passes : Nat
deriving DecidableEq

/-- Model of struct EguiRenderer: the frame_started bracket flag. -/
structure EguiRenderer where
  frame_started : Bool
deriving DecidableEq

/-- Model of EguiRenderer::begin_frame: opens the egui frame bracket. -/
def EguiRenderer.begin_frame (r : EguiRenderer) : EguiRenderer :=
  { r with frame_started := true }

/-- Result of EguiRenderer::end_frame_and_draw: the updated renderer,
the encoder, and the diagnostics printed to stderr.  The source function
is total (it returns early instead of panicking when the bracket is
missing), so the model is a total function with no abort outcome. -/
structure DrawResult where
  renderer : EguiRenderer
  encoder : Encoder
  diagnostics : List String
deriving DecidableEq

/-- Model of EguiRenderer::end_frame_and_draw.  If frame_started is
false it prints a diagnostic and returns before touching the encoder;
otherwise it records one render pass on the encoder (the egui main
pass) and clears the bracket flag. -/
def EguiRenderer.end_frame_and_draw (r : EguiRenderer) (encoder : Encoder) : DrawResult :=
  if !r.frame_started then
    { renderer := r, encoder := encoder,
      diagnostics := ["EguiRenderer: end_frame_and_draw called without begin_frame()"] }
  else
    { renderer := { frame_started := false },
      encoder := { render_passes := encoder.render_passes + 1 },
      diagnostics := [] }

/-! ## WindowState (crates/engine/src/window/window_state.rs) and the
Window trait (crates/engine/src/window/traits.rs) -/

/-- Model of wgpu::SurfaceConfiguration: the stored dimensions. -/
structure SurfaceConfiguration where
  width : Nat
  height : Nat
deriving DecidableEq

/-- Model of struct WindowState: the surface configuration, a counter
of surface.configure calls issued against the device (the observable
for whether the surface was reconfigured), and the owned egui
renderer. -/
structure WindowState where
  config : SurfaceConfiguration
  configure_count : Nat
  egui_renderer : EguiRenderer
deriving DecidableEq

/-- Model of WindowState::resize_surface: unconditionally overwrites
config.width and config.height and calls surface.configure.  The source
has no zero-dimension check here. -/
def WindowState.resize_surface (s : WindowState) (width height : Nat) : WindowState :=
  { s with config := { width := width, height := height },
           configure_count := s.configure_count + 1 }

/-- Model of WindowState::end_frame_and_draw: proxies to the owned
EguiRenderer, threading the renderer state back into the window state. -/
def WindowState.end_frame_and_draw (s : WindowState) (encoder : Encoder) :
    WindowState × Encoder × List String :=
  let r := s.egui_renderer.end_frame_and_draw encoder
  ({ s with egui_renderer := r.renderer }, r.encoder, r.diagnostics)

/-- Model of the Window trait default method handle_resized: calls
resize_surface only when both dimensions are positive. -/
def Window.handle_resized (s : WindowState) (width height : Nat) : WindowState :=
  if width > 0 && height > 0 then s.resize_surface width height else s

/-! ## WindowManager (crates/engine/src/window/window_manager.rs) -/

/-- Model of one registry entry: the Arc pointer identity of the shared
handle, the winit window id it reports, and whether its mutex is
poisoned. -/
structure WindowEntry where
  handle : Nat
  window_id : Nat
  poisoned : Bool
deriving DecidableEq

/-- Model of struct WindowManager: ordered registry plus the optional
active-window reference (a clone of one shared handle). -/
structure WindowManager where
  windows : List WindowEntry
  active_window : Option WindowEntry
deriving DecidableEq

/-- Model of WindowManager::new. -/
def WindowManager.new : WindowManager :=
  { windows := [], active_window := none }

/-- Model of WindowManager::create_window: pushes the new entry and
makes it the active window. -/
def WindowManager.create_window (m : WindowManager) (w : WindowEntry) : WindowManager :=
  { windows := m.windows ++ [w], active_window := some w }

/-- Model of WindowManager::remove_window: retains entries whose id
differs from the argument, dropping poisoned entries as well.  The
block that would clear active_window when it points at the removed
window is commented out in the source, so active_window is untouched. -/
def WindowManager.remove_window (m : WindowManager) (window_id : Nat) : WindowManager :=
  { m with windows :=
      m.windows.filter (fun w => if w.poisoned then false else w.window_id ≠ window_id) }

/-- Model of WindowManager::set_active_window. -/
def WindowManager.set_active_window (m : WindowManager) (w : WindowEntry) : WindowManager :=
  { m with active_window := some w }

/-- Model of WindowManager::cleanup_poisoned_windows: drops poisoned
entries and clears a poisoned active window. -/
def WindowManager.cleanup_poisoned_windows (m : WindowManager) : WindowManager :=
  { windows := m.windows.filter (fun w => !w.poisoned),
    active_window :=
      match m.active_window with
      | some a => if a.poisoned then none else some a
      | none => none }

/-- Model of WindowManager::close_all_windows. -/
def WindowManager.close_all_windows (_m : WindowManager) : WindowManager :=
  { windows := [], active_window := none }

/-- Model of WindowManager::select_next_active_window: with an empty
registry the active reference is cleared; with no active window the
first entry is selected; otherwise the id of the active window is read
(a poisoned lock yields no id and leaves the manager unchanged), its
position in the registry located (a poisoned entry never matches), and
the entry after it, cyclically, becomes active. -/
def WindowManager.select_next_active_window (m : WindowManager) : WindowManager :=
  if m.windows.isEmpty then
    { m with active_window := none }
  else
    match m.active_window with
    | none => { m with active_window := m.windows.head? }
    | some a =>
      match (if a.poisoned then none else some a.window_id) with
      | none => m
      | some active_id =>
        match m.windows.findIdx?
            (fun w => if w.poisoned then false else w.window_id = active_id) with
        | none => m
        | some current_index =>
          { m with active_window := m.windows.get? ((current_index + 1) % m.windows.length) }

/-! ## Render passes (crates/engine/src/renderer/passes.rs) -/

/-- Model of PassContext: the per-frame mutable context shared by all
passes.  The observable it carries is the trace of commands recorded on
the frame encoder. -/
structure PassContext where
  trace : List String

/-- Model of a dyn RenderPass trait object: its name and its execute
behaviour as a state transformer over the shared context. -/
structure RenderPass where
  name : String
  execute : PassContext → PassContext

/-- Model of struct PassManager: ordered vector of passes. -/
structure PassManager where
  passes : List RenderPass

/-- Model of PassManager::new. -/
def PassManager.new : PassManager := { passes := [] }

/-- Model of PassManager::add: appends to the ordered list. -/
def PassManager.add (pm : PassManager) (p : RenderPass) : PassManager :=
  { passes := pm.passes ++ [p] }

/-- Model of PassManager::execute_all: runs execute on every pass in
registration order, threading the one shared context through. -/
def PassManager.execute_all (pm : PassManager) (ctx : PassContext) : PassContext :=
  pm.passes.foldl (fun c p => p.execute c) ctx

/-! ## Sprite subsystem (crates/engine/src/sprite.rs) -/

/-- Model of struct Sprite: the identity of the GPU texture resource
(view and sampler) it references.  Two sprites sharing one texture are
modelled by equal textureId. -/
structure Sprite where
  textureId : Nat
deriving DecidableEq

/-- Model of SpriteRenderer::new instance_capacity = 1024usize. -/
def instance_capacity : Nat := 1024

/-- Model of struct SpritePass: the registered sprites, each paired
with the pointer identity of its bind group, plus a counter supplying
the identity of the next bind group device.create_bind_group returns. -/
structure SpritePass where
  sprites : List (Sprite × Nat)
  next_bind_group_id : Nat
deriving DecidableEq

/-- Model of SpritePass::new. -/
def SpritePass.new : SpritePass := { sprites := [], next_bind_group_id := 0 }

/-- Model of SpritePass::add_sprite: creates a fresh bind group for the
sprite (a new object with a new pointer identity, whatever texture the
sprite references) and pushes the pair. -/
def SpritePass.add_sprite (p : SpritePass) (s : Sprite) : SpritePass :=
  { sprites := p.sprites ++ [(s, p.next_bind_group_id)],
    next_bind_group_id := p.next_bind_group_id + 1 }

/-- One issued instanced draw call: the bind group it binds and its
instance count. -/
structure DrawCall where
  bind_group : Nat
  instance_count : Nat
deriving DecidableEq

/-- Result of SpritePass::execute: the instanced draw calls issued and
the number of capacity warnings logged. -/
structure SpriteExecuteResult where
  draws : List DrawCall
  warnings : Nat
deriving DecidableEq

/-- Model of SpritePass::execute: groups the registered sprites by the
pointer identity of their bind group, then for each group clamps the
instance list to instance_capacity (logging one warning per group that
overflows) and issues one instanced draw call.  The source iterates a
HashMap in unspecified order; the model lists the group keys in the
order List.dedup produces, which only permutes the draws. -/
def SpritePass.execute (p : SpritePass) : SpriteExecuteResult :=
  let keys := (p.sprites.map Prod.snd).dedup
  { draws := keys.map (fun k =>
      let n := (p.sprites.filter (fun sb => sb.2 = k)).length
      { bind_group := k, instance_count := min n instance_capacity }),
    warnings := (keys.filter
      (fun k => instance_capacity < (p.sprites.filter (fun sb => sb.2 = k)).length)).length }

/-! ## Virtual filesystem (crates/engine/src/fs.rs) -/

/-- A VFS path, as its list of components (Rust Path components). -/
abbrev VPath := List String

/-- Model of a dyn FileSystem trait object: its fallible readers, its
existence test, and its debug name.  File bytes are modelled as
strings. -/
structure FileSystem where
  read_to_string : VPath → Except String String
  read_bytes : VPath → Except String String
  exist : VPath → Bool
  name : String

/-- Model of struct Mount.  The field pfx models the path stored in the
field named after the mount point in the source. -/
structure Mount where
  pfx : VPath
  fs : FileSystem
  writable : Bool

/-- Model of Mount::matches: an empty mount point matches everything,
otherwise the path must start with it (componentwise). -/
def Mount.matches (m : Mount) (p : VPath) : Bool :=
  if m.pfx.isEmpty then true else m.pfx.isPrefixOf p

/-- Model of Mount::relative_path: the path with the mount point
stripped; strip failure falls back to the empty path. -/
def Mount.relative_path (m : Mount) (p : VPath) : VPath :=
  if m.pfx.isEmpty then p
  else if m.pfx.isPrefixOf p then p.drop m.pfx.length else []

/-- Model of struct Vfs: the ordered mount list (lowest priority
first). -/
structure Vfs where
  mounts : List Mount

/-- Model of Vfs::new. -/
def Vfs.new : Vfs := { mounts := [] }

/-- Model of Vfs::mount: pushes at the end (highest priority). -/
def Vfs.mount (v : Vfs) (pfx : VPath) (fs : FileSystem) (writable : Bool) : Vfs :=
  { mounts := v.mounts ++ [{ pfx := pfx, fs := fs, writable := writable }] }

/-- Model of Vfs::unmount: retains the mounts whose mount point differs
from the argument — every exact match is removed. -/
def Vfs.unmount (v : Vfs) (pfx : VPath) : Vfs :=
  { mounts := v.mounts.filter (fun m => m.pfx ≠ pfx) }

/-- Model of Vfs::resolve_mount_for: walks the mount list from the most
recently added and returns the first match together with the relative
path and the writable flag. -/
def Vfs.resolve_mount_for (v : Vfs) (p : VPath) :
    Option (FileSystem × VPath × Bool) :=
  (v.mounts.reverse.find? (fun m => m.matches p)).map
    (fun m => (m.fs, m.relative_path p, m.writable))

/-- Model of Vfs::read_bytes: delegates to the resolved mount, erring
when no mount matches.  Context wrapping of inner errors is dropped:
only ok versus error is observed. -/
def Vfs.read_bytes (v : Vfs) (p : VPath) : Except String String :=
  match v.resolve_mount_for p with
  | some (fs, rel, _) => fs.read_bytes rel
  | none => Except.error "no mount found for path"

/-- Model of Vfs::read_to_string, same shape as read_bytes. -/
def Vfs.read_to_string (v : Vfs) (p : VPath) : Except String String :=
  match v.resolve_mount_for p with
  | some (fs, rel, _) => fs.read_to_string rel
  | none => Except.error "no mount found for path"

/-- Model of Vfs::exists (named exists_file because the source name is
a Lean keyword): true exactly when the resolved mount reports the
relative path as existing; false when no mount matches. -/
def Vfs.exists_file (v : Vfs) (p : VPath) : Bool :=
  match v.resolve_mount_for p with
  | some (fs, rel, _) => fs.exist rel
  | none => false

/-! ## Theorems -/

/-- Claim C6: for every starting zoom, every input to set_zoom and every
delta to zoom_by (any sign or magnitude), the stored zoom after the call
is at least 0.1 = 1/10, hence never zero or negative. -/
theorem c6_zoom_floor (c : Camera2D) (z d : ℚ) :
    (1 / 10 ≤ (c.set_zoom z).zoom ∧ 0 < (c.set_zoom z).zoom) ∧
    (1 / 10 ≤ (c.zoom_by d).zoom ∧ 0 < (c.zoom_by d).zoom) :=
  ⟨⟨le_max_right _ _, lt_of_lt_of_le (by norm_num) (le_max_right _ _)⟩,
   ⟨le_max_right _ _, lt_of_lt_of_le (by norm_num) (le_max_right _ _)⟩⟩

/-- Claim C7: for every camera position, zoom > 0, viewport and point,
screen_to_world inverts world_to_screen exactly (the rational model has
no rounding, so the floating-point tolerance is zero). -/
theorem c7_round_trip (c : Camera2D) (wx wy : ℚ) (h : 0 < c.zoom) :
    c.screen_to_world (c.world_to_screen wx wy).1 (c.world_to_screen wx wy).2 = (wx, wy) := by
  have hz : c.zoom ≠ 0 := ne_of_gt h
  unfold Camera2D.screen_to_world Camera2D.world_to_screen
  simp only [Prod.mk.injEq]
  constructor <;> field_simp

/-- Witness for c7_round_trip at the default camera and the point
(5, 7). -/
theorem c7_round_trip_witness :
    0 < (Camera2D.new 800 600).zoom ∧
    (Camera2D.new 800 600).screen_to_world
      ((Camera2D.new 800 600).world_to_screen 5 7).1
      ((Camera2D.new 800 600).world_to_screen 5 7).2 = (5, 7) :=
  ⟨by simp [Camera2D.new], c7_round_trip (Camera2D.new 800 600) 5 7 (by simp [Camera2D.new])⟩

/-- Claim C1, counterexample: WindowState::resize_surface itself has no
zero-dimension guard.  Starting from a configuration of 800 x 600,
resize_surface(0, 600) overwrites the stored width with 0 and issues a
surface.configure call, refuting both the unchanged-configuration and
the no-reconfigure parts of the claim at this input. -/
theorem c1_counterexample :
    ¬ ((WindowState.resize_surface ⟨⟨800, 600⟩, 0, ⟨false⟩⟩ 0 600).config.width = 800 ∧
       (WindowState.resize_surface ⟨⟨800, 600⟩, 0, ⟨false⟩⟩ 0 600).configure_count = 0) := by
  decide

/-- Claim C1, amended: the zero-dimension guard lives one level up, in
the Window trait method handle_resized, which calls resize_surface only
when both dimensions are positive; handle_resized with a zero width or
a zero height leaves the window state (stored configuration and
configure-call count) entirely unchanged. -/
theorem c1_resize_zero_noop (s : WindowState) (w h : Nat) :
    Window.handle_resized s 0 h = s ∧ Window.handle_resized s w 0 = s := by
  constructor <;> simp [Window.handle_resized]

/-- Claim C4, counterexample: create one window (the registry holds it
and it becomes the active window), then remove it by its id.  The
registry becomes empty but the active-window reference still holds the
removed entry, because the invalidation block in remove_window is
commented out in the source — so the invariant fails. -/
theorem c4_counterexample :
    ((WindowManager.new.create_window ⟨0, 0, false⟩).remove_window 0).active_window
        = some ⟨0, 0, false⟩ ∧
    ((WindowManager.new.create_window ⟨0, 0, false⟩).remove_window 0).windows = [] := by
  decide

/-- Claim C4, amended: remove_window prunes matching (and poisoned)
entries from the registry but never touches the active-window
reference, even when it pointed at the removed window; the active
reference is invalidated elsewhere — by close_all_windows, by
cleanup_poisoned_windows when the active window is poisoned, and by
select_next_active_window when the registry is empty (in particular in
the dangling state the counterexample reaches). -/
theorem c4_remove_keeps_active (m : WindowManager) (window_id : Nat) :
    (m.remove_window window_id).active_window = m.active_window ∧
    (m.cleanup_poisoned_windows.active_window = m.active_window.bind
        (fun a => if a.poisoned then none else some a)) ∧
    (m.close_all_windows.active_window = none) ∧
    (({ m with windows := [] } : WindowManager).select_next_active_window.active_window
        = none) := by
  refine ⟨rfl, ?_, rfl, rfl⟩
  unfold WindowManager.cleanup_poisoned_windows
  cases m.active_window <;> rfl

/-- Scene::update always leaves a zero accumulator: either the branch
resets it, or it was already (0, 0) because a rational delta with zero
squared norm has both components zero. -/
theorem Scene.update_resets (s : Scene) (dt : ℚ) : (s.update dt).mouse_delta = (0, 0) := by
  unfold Scene.update
  split
  · rfl
  · next h =>
    push_neg at h
    have h1 : s.mouse_delta.1 ^ 2 + s.mouse_delta.2 ^ 2 = 0 := le_antisymm h (by positivity)
    have hx : s.mouse_delta.1 = 0 := by
      nlinarith [sq_nonneg s.mouse_delta.1, sq_nonneg s.mouse_delta.2]
    have hy : s.mouse_delta.2 = 0 := by
      nlinarith [sq_nonneg s.mouse_delta.1, sq_nonneg s.mouse_delta.2]
    simp [Prod.ext_iff, hx, hy]

/-- Scene::update never changes the camera: the one statement in the
taken branch resets the accumulator only. -/
theorem Scene.update_camera (s : Scene) (dt : ℚ) : (s.update dt).camera = s.camera := by
  unfold Scene.update
  split <;> rfl

/-- Scene::update on a zero accumulator is the identity. -/
theorem Scene.update_of_zero (s : Scene) (dt : ℚ) (h : s.mouse_delta = (0, 0)) :
    s.update dt = s := by
  unfold Scene.update
  rw [h]
  norm_num

/-- Claim C2, counterexample: accumulate (1, 0) then (2, 0) then update
once.  The camera is exactly the camera the scene started with: no
delta — in particular not the accumulated (3, 0), which is nonzero — is
ever applied to the camera or any other game state, because the line
applying the delta is commented out in Scene::update. -/
theorem c2_counterexample :
    ((((Scene.new "main" (Camera2D.new 800 600)).accumulate_mouse 1 0).accumulate_mouse
        2 0).update 1).camera = (Scene.new "main" (Camera2D.new 800 600)).camera ∧
    ((1 : ℚ) + 2, (0 : ℚ) + 0) ≠ ((0 : ℚ), (0 : ℚ)) := by
  constructor
  · norm_num [Scene.new, Scene.accumulate_mouse, Scene.update, Camera2D.new]
  · norm_num

/-- Claim C2, amended: after accumulate_mouse(dx1,dy1),
accumulate_mouse(dx2,dy2) and one update, the accumulator is reset to
zero and the whole camera is left unchanged — the accumulated delta is
consumed (at most once) but never applied to camera or game state, as
the application statement is commented out; a second update with no
intervening accumulation changes nothing at all. -/
theorem c2_update_consumes (s : Scene) (dx1 dy1 dx2 dy2 dt dt2 : ℚ) :
    (((s.accumulate_mouse dx1 dy1).accumulate_mouse dx2 dy2).update dt).mouse_delta = (0, 0) ∧
    (((s.accumulate_mouse dx1 dy1).accumulate_mouse dx2 dy2).update dt).camera = s.camera ∧
    ((((s.accumulate_mouse dx1 dy1).accumulate_mouse dx2 dy2).update dt).update dt2)
        = (((s.accumulate_mouse dx1 dy1).accumulate_mouse dx2 dy2).update dt) :=
  ⟨Scene.update_resets _ dt,
   (Scene.update_camera _ dt).trans rfl,
   Scene.update_of_zero _ dt2 (Scene.update_resets _ dt)⟩

/-- Claim C8: WindowState::end_frame_and_draw (which proxies to
EguiRenderer::end_frame_and_draw) called while the frame bracket is not
open returns normally — the guard takes an early return rather than
panicking — leaving the window state and the caller encoder unchanged
(no render pass is opened on it) and reporting one diagnostic. -/
theorem c8_skip_without_begin (s : WindowState) (encoder : Encoder)
    (h : s.egui_renderer.frame_started = false) :
    s.end_frame_and_draw encoder
      = (s, encoder, ["EguiRenderer: end_frame_and_draw called without begin_frame()"]) := by
  unfold WindowState.end_frame_and_draw EguiRenderer.end_frame_and_draw
  rw [h]
  simp

/-- Witness for c8_skip_without_begin at a concrete window state whose
egui frame bracket is closed. -/
theorem c8_skip_without_begin_witness :
    (WindowState.mk ⟨800, 600⟩ 0 ⟨false⟩).egui_renderer.frame_started = false ∧
    (WindowState.mk ⟨800, 600⟩ 0 ⟨false⟩).end_frame_and_draw ⟨0⟩
      = (WindowState.mk ⟨800, 600⟩ 0 ⟨false⟩, (⟨0⟩ : Encoder),
         ["EguiRenderer: end_frame_and_draw called without begin_frame()"]) :=
  ⟨rfl, c8_skip_without_begin _ _ rfl⟩

/-- Folding execute over a list of passes whose execute appends their
name to the context trace appends exactly the list of names, in list
order. -/
theorem foldl_execute_trace (l : List RenderPass) (ctx : PassContext)
    (h : ∀ p ∈ l, ∀ c, (p.execute c).trace = c.trace ++ [p.name]) :
    (l.foldl (fun c p => p.execute c) ctx).trace = ctx.trace ++ l.map RenderPass.name := by
  induction l generalizing ctx with
  | nil => simp
  | cons p t ih =>
    simp only [List.foldl_cons, List.map_cons]
    rw [ih _ (fun q hq c => h q (List.mem_cons_of_mem p hq) c),
        h p (List.mem_cons_self p t) ctx, List.append_assoc]
    rfl

/-- Claim C9: execute_all runs every registered pass exactly once, in
registration order, against the one threaded context.  First part: for
passes added in order [A, B], the frame context flows through A and
then B, so A executes strictly before B.  Second part: for any pass
list whose passes each record their name on the shared trace, the trace
after execute_all is the registration-ordered name list appended once. -/
theorem c9_execution_order :
    (∀ (A B : RenderPass) (ctx : PassContext),
        ((PassManager.new.add A).add B).execute_all ctx = B.execute (A.execute ctx)) ∧
    (∀ (pm : PassManager) (ctx : PassContext),
        (∀ p ∈ pm.passes, ∀ c, (p.execute c).trace = c.trace ++ [p.name]) →
        (pm.execute_all ctx).trace = ctx.trace ++ pm.passes.map RenderPass.name) :=
  ⟨fun _ _ _ => rfl, fun pm ctx h => foldl_execute_trace pm.passes ctx h⟩

/-- A pass that records its own name on the frame trace, used to
observe execution order. -/
def trace_pass (n : String) : RenderPass :=
  { name := n, execute := fun c => { trace := c.trace ++ [n] } }

/-- Witness for c9_execution_order on two concrete trace passes
registered in order [A, B]: the recorded trace is exactly [A, B]. -/
theorem c9_execution_order_witness :
    (((PassManager.new.add (trace_pass "A")).add (trace_pass "B")).execute_all
        ⟨[]⟩).trace = ["A", "B"] := by
  have h := c9_execution_order.2
    ((PassManager.new.add (trace_pass "A")).add (trace_pass "B")) ⟨[]⟩
    (by
      intro p hp c
      simp [PassManager.new, PassManager.add] at hp
      rcases hp with rfl | rfl <;> rfl)
  simpa [PassManager.new, PassManager.add, trace_pass] using h

/-- The componentwise prefix test accepts the left factor of any
concatenation. -/
theorem isPrefixOf_append_self (l r : List String) : l.isPrefixOf (l ++ r) = true := by
  induction l with
  | nil => simp
  | cons a t ih => simp [ih]

/-- A constant filesystem: every read serves the given content and
every path exists. -/
def constFs (content : String) : FileSystem :=
  { read_to_string := fun _ => Except.ok content,
    read_bytes := fun _ => Except.ok content,
    exist := fun _ => true,
    name := content }

/-- Two mounts registered in order [A, B] on the same mount point x,
serving distinct contents. -/
def vfsAB : Vfs :=
  (Vfs.new.mount ["x"] (constFs "from_a") false).mount ["x"] (constFs "from_b") false

/-- Claim C5, counterexample: with [A, B] mounted on x, the read does
return the later mount B.  But the only way to unmount B is
Vfs::unmount("x"), and that removes every mount whose mount point
equals x — A as well — so the subsequent read fails with the no-mount
error instead of returning the content served by A. -/
theorem c5_counterexample :
    vfsAB.read_to_string ["x", "file"] = Except.ok "from_b" ∧
    (vfsAB.unmount ["x"]).read_to_string ["x", "file"]
        = Except.error "no mount found for path" ∧
    (Except.error "no mount found for path" : Except String String)
        ≠ Except.ok "from_a" := by
  refine ⟨rfl, rfl, ?_⟩
  intro h
  exact Except.noConfusion h

/-- Claim C5, amended: with mounts registered in order [A, B] on one
mount point, a read under that mount point is served by the
later-registered B; unmount removes every mount whose mount point
equals the argument, so unmounting the shared mount point removes both
B and A at once (afterwards a read under it is served by whatever the
rest of the Vfs resolves, or fails with the no-mount error when nothing
is left). -/
theorem c5_mount_priority (v : Vfs) (pfx rest : VPath) (fsA fsB : FileSystem)
    (wa wb : Bool) :
    ((v.mount pfx fsA wa).mount pfx fsB wb).read_to_string (pfx ++ rest)
        = fsB.read_to_string rest ∧
    (((v.mount pfx fsA wa).mount pfx fsB wb).unmount pfx).mounts = (v.unmount pfx).mounts := by
  constructor
  · have hm : Mount.matches { pfx := pfx, fs := fsB, writable := wb } (pfx ++ rest) = true := by
      unfold Mount.matches
      split
      · rfl
      · exact isPrefixOf_append_self pfx rest
    have hr : Mount.relative_path { pfx := pfx, fs := fsB, writable := wb } (pfx ++ rest)
        = rest := by
      unfold Mount.relative_path
      split
      · next he =>
        have h0 : pfx = [] := List.isEmpty_iff.mp he
        subst h0
        rfl
      · rw [isPrefixOf_append_self pfx rest]
        simp [List.drop_left]
    unfold Vfs.read_to_string Vfs.resolve_mount_for Vfs.mount
    simp only [List.reverse_append, List.reverse_singleton, List.singleton_append,
      List.find?_cons, hm]
    simp [hr]
  · unfold Vfs.unmount Vfs.mount
    simp

/-- Claim C10: when no mount matches a path, exists returns false while
read_bytes and read_to_string return the no-mount error; and when a
mount does match, all three are answered by the same highest-priority
mount that resolve_mount_for picks, on the same relative path. -/
theorem c10_unmatched_path (v : Vfs) (p : VPath) :
    (v.resolve_mount_for p = none →
      v.exists_file p = false ∧
      v.read_bytes p = Except.error "no mount found for path" ∧
      v.read_to_string p = Except.error "no mount found for path") ∧
    (∀ fs rel w, v.resolve_mount_for p = some (fs, rel, w) →
      v.exists_file p = fs.exist rel ∧
      v.read_bytes p = fs.read_bytes rel ∧
      v.read_to_string p = fs.read_to_string rel) := by
  constructor
  · intro h
    refine ⟨?_, ?_, ?_⟩ <;>
      simp [Vfs.exists_file, Vfs.read_bytes, Vfs.read_to_string, h]
  · intro fs rel w h
    refine ⟨?_, ?_, ?_⟩ <;>
      simp [Vfs.exists_file, Vfs.read_bytes, Vfs.read_to_string, h]

/-- Witness for c10_unmatched_path: the empty Vfs resolves nothing, so
exists is false and both reads fail with the no-mount error; and on
vfsAB the mount resolved for the read also answers exists. -/
theorem c10_unmatched_path_witness :
    (Vfs.new.resolve_mount_for ["missing"] = none ∧
      Vfs.new.exists_file ["missing"] = false ∧
      Vfs.new.read_bytes ["missing"] = Except.error "no mount found for path" ∧
      Vfs.new.read_to_string ["missing"] = Except.error "no mount found for path") ∧
    (vfsAB.resolve_mount_for ["x", "file"]
        = some (constFs "from_b", ["file"], false) ∧
      vfsAB.exists_file ["x", "file"] = (constFs "from_b").exist ["file"]) :=
  ⟨⟨rfl, (c10_unmatched_path Vfs.new ["missing"]).1 rfl⟩,
   ⟨rfl, ((c10_unmatched_path vfsAB ["x", "file"]).2 _ _ _ rfl).1⟩⟩

/-- Deduplicating a nonempty list whose elements are all equal to b
yields the singleton [b]. -/
theorem dedup_all_eq {l : List Nat} {b : Nat} (hne : l ≠ [])
    (hall : ∀ x ∈ l, x = b) : l.dedup = [b] := by
  induction l with
  | nil => exact absurd rfl hne
  | cons a t ih =>
    have ha : a = b := hall a (List.mem_cons_self a t)
    cases t with
    | nil => simp [ha]
    | cons c u =>
      have hmem : a ∈ c :: u := by
        rw [ha, ← hall c (by simp)]
        exact List.mem_cons_self c u
      rw [List.dedup_cons_of_mem hmem]
      exact ih (by simp) (fun x hx => hall x (List.mem_cons_of_mem a hx))

/-- Two sprites referencing the same texture, both registered through
SpritePass::add_sprite. -/
def spritePassTwo : SpritePass :=
  (SpritePass.new.add_sprite ⟨0⟩).add_sprite ⟨0⟩

/-- Claim C3, counterexample: a SpritePass holding 2 sprites that share
one texture issues 2 instanced draw calls of one instance each, not the
single draw call with instance count 2 the claim predicts — add_sprite
creates a fresh bind group per sprite and execute groups by bind-group
pointer identity, so same-texture sprites never share a batch. -/
theorem c3_counterexample :
    (∀ sb ∈ spritePassTwo.sprites, sb.1.textureId = 0) ∧
    spritePassTwo.sprites.length = 2 ∧
    spritePassTwo.execute.draws.length = 2 ∧
    ¬ spritePassTwo.execute.draws.length = 1 := by
  decide

/-- Claim C3, amended: the batching key is bind-group object identity,
not the shared texture: for every nonempty sprite list whose entries
all carry one and the same bind group, execute issues exactly one
instanced draw call with that bind group and instance count N clamped
to the fixed capacity 1024, and logs a warning exactly when N exceeds
the capacity.  Sprites registered through add_sprite always receive
fresh bind groups, so sharing a texture alone never produces a shared
batch. -/
theorem c3_batch_by_bind_group (sps : List (Sprite × Nat)) (b nb : Nat)
    (hne : sps ≠ []) (hall : ∀ sb ∈ sps, sb.2 = b) :
    (SpritePass.mk sps nb).execute.draws
        = [{ bind_group := b, instance_count := min sps.length instance_capacity }] ∧
    (SpritePass.mk sps nb).execute.warnings
        = (if instance_capacity < sps.length then 1 else 0) := by
  have hmap : ∀ x ∈ sps.map Prod.snd, x = b := by
    intro x hx
    rcases List.mem_map.mp hx with ⟨sb, hsb, rfl⟩
    exact hall sb hsb
  have hkeys : (sps.map Prod.snd).dedup = [b] :=
    dedup_all_eq (by simpa using hne) hmap
  have hfilter : sps.filter (fun sb => sb.2 = b) = sps :=
    List.filter_eq_self.mpr (fun sb hsb => by simp [hall sb hsb])
  unfold SpritePass.execute
  rw [hkeys]
  constructor
  · simp [hfilter]
  · by_cases hcap : instance_capacity < sps.length
    · simp [hfilter, hcap]
    · simp [hfilter, hcap]

/-- Witness for c3_batch_by_bind_group: three sprites sharing bind
group 5 produce the single draw call (bind group 5, three instances)
and no warning. -/
theorem c3_batch_by_bind_group_witness :
    (([(⟨0⟩, 5), (⟨1⟩, 5), (⟨2⟩, 5)] : List (Sprite × Nat)) ≠ []) ∧
    (SpritePass.mk [(⟨0⟩, 5), (⟨1⟩, 5), (⟨2⟩, 5)] 9).execute.draws
        = [{ bind_group := 5,
             instance_count := min
               ([(⟨0⟩, 5), (⟨1⟩, 5), (⟨2⟩, 5)] : List (Sprite × Nat)).length
               instance_capacity }] ∧
    (SpritePass.mk [(⟨0⟩, 5), (⟨1⟩, 5), (⟨2⟩, 5)] 9).execute.warnings
        = (if instance_capacity
              < ([(⟨0⟩, 5), (⟨1⟩, 5), (⟨2⟩, 5)] : List (Sprite × Nat)).length
           then 1 else 0) :=
  ⟨by decide,
   (c3_batch_by_bind_group [(⟨0⟩, 5), (⟨1⟩, 5), (⟨2⟩, 5)] 5 9 (by decide) (by decide)).1,
   (c3_batch_by_bind_group [(⟨0⟩, 5), (⟨1⟩, 5), (⟨2⟩, 5)] 5 9 (by decide) (by decide)).2⟩

end Gena
